import Mathlib

/-!
# SEO-Generate frontend: handlers of the React pages as pure functions

The pages under `src/frontend/src/pages` are embedded shallowly:

* a JavaScript string is the list of its UTF-16 code units;
* a component's `useState` cells form a record, and a handler is a function
  from the record (plus the outcome of the request it awaits) to the new
  record and the list of effects it performed, in program order;
* the controls of a page (text area, selects, buttons, table) generate the
  events of a step relation, from which reachable states are defined.
-/

namespace SeoGenerate

/-! ## JavaScript strings -/

/-- A JavaScript string: the sequence of its UTF-16 code units. -/
abbrev JSString := List Nat

/-- UTF-16 encoding of one Unicode scalar value. -/
def utf16 (c : Char) : List Nat :=
  if c.toNat < 0x10000 then [c.toNat]
  else [0xD800 + (c.toNat - 0x10000) / 0x400, 0xDC00 + (c.toNat - 0x10000) % 0x400]

/-- A string literal of the source text as a JavaScript string. -/
def js (s : String) : JSString := (s.toList.map utf16).flatten

/-- The code unit of the line feed, the separator in `value.split('\n')`. -/
def lineFeed : Nat := 10

/-- ECMAScript `WhiteSpace` and `LineTerminator` code units other than the
    block U+2000 .. U+200A: TAB, LF, VT, FF, CR, SP, NBSP, U+1680, LS, PS,
    U+202F, U+205F, U+3000, ZWNBSP. -/
def whiteSpaceUnits : List Nat :=
  [0x09, 0x0A, 0x0B, 0x0C, 0x0D, 0x20, 0xA0, 0x1680, 0x2028, 0x2029, 0x202F, 0x205F,
   0x3000, 0xFEFF]

/-- The code units that `String.prototype.trim` strips. -/
def isWhiteSpace (c : Nat) : Bool :=
  whiteSpaceUnits.contains c || (decide (0x2000 ≤ c) && decide (c ≤ 0x200A))

/-- `String.prototype.trim`: strip white space from both ends. -/
def trim (s : JSString) : JSString :=
  (s.dropWhile isWhiteSpace).rdropWhile isWhiteSpace

/-- `String.prototype.split` for a separator of one code unit: the pieces
    between consecutive separators, so the empty string gives one empty piece. -/
def split (sep : Nat) : JSString → List JSString
  | [] => [[]]
  | c :: cs =>
    if c = sep then [] :: split sep cs
    else
      match split sep cs with
      | [] => [[c]]
      | l :: ls => (c :: l) :: ls

/-- `Array.prototype.join` with a separator of one code unit. -/
def join (sep : Nat) (parts : List JSString) : JSString :=
  [sep].intercalate parts

/-- JavaScript truthiness of a string: every string but the empty one. -/
def truthy (s : JSString) : Bool := !s.isEmpty

/-! ## The batch page (`BatchOperations.jsx`) -/

/-- The localized fields of a generated content record the pages read. -/
structure GeneratedContent where
  title : JSString
  meta : JSString
  body : JSString
deriving DecidableEq, Repr

/-- One record of `response.data.results`: the fields the result table reads.
    `content` is absent for a failed item, `total_score` is
    `validation.seo_score.total_score`. -/
structure ResultRow where
  content_id : JSString
  keywords : JSString
  content : Option GeneratedContent
  total_score : Option ℚ
deriving DecidableEq, Repr

/-- The six `useState` cells of `BatchOperations`. -/
structure BatchState where
  keywords : List JSString
  loading : Bool
  generatedContents : List ResultRow
  selectedRows : List ResultRow
  exportFormat : JSString
  progress : Nat
deriving DecidableEq, Repr

/-- The initial values of the `useState` cells of `BatchOperations`. -/
def BatchState.init : BatchState :=
  { keywords := [], loading := false, generatedContents := [], selectedRows := [],
    exportFormat := js "csv", progress := 0 }

/-- `handleKeywordsInput`: split on line feeds, trim every line, keep the truthy ones. -/
def handleKeywordsInput (st : BatchState) (value : JSString) : BatchState :=
  { st with keywords := ((split lineFeed value).map trim).filter truthy }

/-! ## Requests, responses and effects -/

/-- The body of a binary (`responseType: 'blob'`) response or of an uploaded file. -/
abbrev Blob := List Nat

/-- The requests the pages send through axios, one constructor per endpoint:
    `POST /api/generate`, `POST /api/validate`, `GET /api/content/search`,
    `DELETE /api/content/:id`, `POST /api/batch/import-keywords`,
    `POST /api/batch/generate`, `POST /api/batch/export` and
    `GET /api/analytics/stats?days=`. The arguments are the fields of the body
    (or the query parameters) in source order. -/
inductive Request where
  | generate (keywords type : JSString)
  | validate (content : JSString)
  | search (page limit : Nat) (keywords type : JSString)
  | delete (contentId : JSString)
  | importKeywords (file : Blob)
  | batchGenerate (keywords_list : List JSString) (type : JSString)
  | batchExport (content_ids : List JSString) (format : JSString)
  | stats (days : Nat)
deriving DecidableEq, Repr

/-- What a handler does besides setting state: the request it sends, the antd
    `message.success` / `message.error` / `message.warning` toasts it shows to
    the user, `console.error(label, error)` (developer console only) and the
    click on a temporary download link. -/
inductive Effect where
  | request (r : Request)
  | messageSuccess (text : JSString)
  | messageError (text : JSString)
  | messageWarning (text : JSString)
  | consoleError (label error : JSString)
  | download (fileName : JSString) (data : Blob)
deriving DecidableEq, Repr

/-- The JSON envelope `response.data` of the API: the `success` flag, the payload
    field read on success and the optional `error` string. -/
structure Envelope (α : Type) where
  success : Bool
  payload : α
  error : Option JSString
deriving DecidableEq, Repr

/-- How an awaited axios promise settles: it resolves with `response.data`, or
    it rejects and `catch (error)` sees `error.message`. -/
inductive Outcome (α : Type) where
  | resolved (data : α)
  | rejected (message : JSString)
deriving DecidableEq, Repr

/-- String conversion of a possibly absent string field in `'...' + x`. -/
def toStr : Option JSString → JSString
  | some s => s
  | none => js "undefined"

/-- `Number::toString` of a non-negative integer below 10^21: its decimal digits. -/
def numberToString (n : Nat) : JSString :=
  if n = 0 then [48] else (Nat.digits 10 n).reverse.map (fun d => 48 + d)

/-- The user-visible error toasts among the effects of a handler. -/
def shownErrors : List Effect → List JSString
  | [] => []
  | Effect.messageError text :: es => text :: shownErrors es
  | _ :: es => shownErrors es

/-- The requests among the effects of a handler. -/
def sentRequests : List Effect → List Request
  | [] => []
  | Effect.request r :: es => r :: sentRequests es
  | _ :: es => sentRequests es

/-- The downloads among the effects of a handler. -/
def downloads : List Effect → List (JSString × Blob)
  | [] => []
  | Effect.download name data :: es => (name, data) :: downloads es
  | _ :: es => downloads es

/-! ## Handlers of the batch page -/

/-- `handleFileUpload`: `status` is `info.file.status`, `file` is `info.file`. -/
def handleFileUpload (st : BatchState) (status : Option JSString) (file : Blob)
    (out : Outcome (Envelope (List JSString))) : BatchState × List Effect :=
  if status ≠ some (js "uploading") then
    match out with
    | Outcome.resolved data =>
      if data.success then
        ({ st with keywords := data.payload },
          [Effect.request (Request.importKeywords file),
           Effect.messageSuccess (js "关键词导入成功！")])
      else
        (st, [Effect.request (Request.importKeywords file),
              Effect.messageError (js "导入失败：" ++ toStr data.error)])
    | Outcome.rejected message =>
      (st, [Effect.request (Request.importKeywords file),
            Effect.messageError (js "请求失败：" ++ message)])
  else (st, [])

/-- `startBatchGeneration` up to its `await`: `setLoading(true)`, `setProgress(0)`
    and the request of lines 73-76. -/
def startBatchGenerationSend (st : BatchState) : BatchState × List Effect :=
  ({ st with loading := true, progress := 0 },
    [Effect.request (Request.batchGenerate st.keywords (js "article"))])

/-- `startBatchGeneration` after its `await`: the `try` body from line 78, the
    `catch` and the `finally` block. -/
def startBatchGenerationSettle (st : BatchState) (out : Outcome (Envelope (List ResultRow))) :
    BatchState × List Effect :=
  let r : BatchState × List Effect :=
    match out with
    | Outcome.resolved data =>
      if data.success then
        ({ st with generatedContents := data.payload },
          [Effect.messageSuccess (js "批量生成完成！")])
      else (st, [Effect.messageError (js "生成失败：" ++ toStr data.error)])
    | Outcome.rejected message => (st, [Effect.messageError (js "请求失败：" ++ message)])
  ({ r.1 with loading := false, progress := 100 }, r.2)

/-- `startBatchGeneration`: the guard on `keywords.length`, then the request and
    its settlement. -/
def startBatchGeneration (st : BatchState) (out : Outcome (Envelope (List ResultRow))) :
    BatchState × List Effect :=
  if st.keywords.length = 0 then (st, [Effect.messageWarning (js "请先添加关键词")])
  else
    let sent := startBatchGenerationSend st
    let settled := startBatchGenerationSettle sent.1 out
    (settled.1, sent.2 ++ settled.2)

/-- `exportContents`: `now` is `new Date().getTime()` read after the response
    arrived. No state cell is set on either path. -/
def exportContents (st : BatchState) (now : Nat) (out : Outcome Blob) :
    BatchState × List Effect :=
  let req := Effect.request
    (Request.batchExport (st.selectedRows.map (fun row => row.content_id)) st.exportFormat)
  match out with
  | Outcome.resolved data =>
    (st, [req, Effect.download
      (js "seo_contents_" ++ numberToString now ++ js "." ++ st.exportFormat) data])
  | Outcome.rejected message => (st, [req, Effect.messageError (js "导出失败：" ++ message)])

/-- The `value`s of the two `Option`s of the export-format `Select`. -/
def exportFormatOptions : List JSString := [js "csv", js "json"]

/-- The `disabled` prop of the export button. -/
def exportDisabled (st : BatchState) : Bool := decide (st.selectedRows.length = 0)

/-- An absent score converts to NaN, for which every comparison is false; a
    score decoded from the JSON response is otherwise a rational number. -/
def jsGe (x : Option ℚ) (bound : ℚ) : Bool :=
  match x with
  | some v => decide (v ≥ bound)
  | none => false

/-- The `color` of the SEO-score `Tag` in the result table. -/
def scoreTagColor (score : Option ℚ) : JSString :=
  if jsGe score 80 then js "green" else if jsGe score 60 then js "orange" else js "red"

/-- The controls of the batch page as events: the text area, the upload, the
    generate button (the request and, later, its settlement), the format
    `Select`, the row selection of the table and the export button, which can
    be clicked only while it is enabled. A settlement is allowed in every state,
    so the relation covers every interleaving of a pending request with the
    other controls. -/
inductive BatchStep : BatchState → BatchState → Prop where
  | keywordsInput (st : BatchState) (value : JSString) :
      BatchStep st (handleKeywordsInput st value)
  | fileUpload (st : BatchState) (status : Option JSString) (file : Blob)
      (out : Outcome (Envelope (List JSString))) :
      BatchStep st (handleFileUpload st status file out).1
  | generateRejected (st : BatchState) (h : st.keywords.length = 0) :
      BatchStep st st
  | generateSent (st : BatchState) (h : st.keywords.length ≠ 0) :
      BatchStep st (startBatchGenerationSend st).1
  | generateSettled (st : BatchState) (out : Outcome (Envelope (List ResultRow))) :
      BatchStep st (startBatchGenerationSettle st out).1
  | formatSelected (st : BatchState) (value : JSString) (h : value ∈ exportFormatOptions) :
      BatchStep st { st with exportFormat := value }
  | rowsSelected (st : BatchState) (rows : List ResultRow) :
      BatchStep st { st with selectedRows := rows }
  | exportClicked (st : BatchState) (now : Nat) (out : Outcome Blob)
      (h : exportDisabled st = false) :
      BatchStep st (exportContents st now out).1

/-- The states of the batch page reachable from the initial render. -/
inductive BatchReachable : BatchState → Prop where
  | init : BatchReachable BatchState.init
  | step (st st2 : BatchState) (h : BatchReachable st) (hs : BatchStep st st2) :
      BatchReachable st2

/-! ## The single-item generator page (`ContentGenerator.jsx`) -/

/-- The `useState` cells of `ContentGenerator`. -/
structure GeneratorState where
  loading : Bool
  generatedContent : Option GeneratedContent
deriving DecidableEq, Repr

/-- `handleSubmit`: `keywords` and `contentType` are the two form values. -/
def handleSubmit (st : GeneratorState) (keywords contentType : JSString)
    (out : Outcome (Envelope GeneratedContent)) : GeneratorState × List Effect :=
  let st1 := { st with loading := true }
  let req := Effect.request (Request.generate keywords contentType)
  let r : GeneratorState × List Effect :=
    match out with
    | Outcome.resolved data =>
      if data.success then
        ({ st1 with generatedContent := some data.payload },
          [Effect.messageSuccess (js "内容生成成功！")])
      else (st1, [Effect.messageError (js "内容生成失败：" ++ toStr data.error)])
    | Outcome.rejected message => (st1, [Effect.messageError (js "请求失败：" ++ message)])
  ({ r.1 with loading := false }, req :: r.2)

/-! ## The analysis page (`ContentAnalysis.jsx`) -/

/-- The field `keyword_density` of a validation payload. -/
structure KeywordDensity where
  value : ℚ
  status : JSString
deriving DecidableEq, Repr

/-- The field `readability` of a validation payload. -/
structure Readability where
  score : ℚ
  suggestions : List JSString
deriving DecidableEq, Repr

/-- The payload `response.data.validation`; `total_score` is
    `seo_score.total_score`. -/
structure Validation where
  total_score : ℚ
  keyword_density : KeywordDensity
  readability : Readability
deriving DecidableEq, Repr

/-- The `useState` cells of `ContentAnalysis`. -/
structure AnalysisState where
  content : JSString
  analysis : Option Validation
  loading : Bool
deriving DecidableEq, Repr

/-- `handleAnalyze`: the guard on the trimmed content, then the request. -/
def handleAnalyze (st : AnalysisState) (out : Outcome (Envelope Validation)) :
    AnalysisState × List Effect :=
  if !truthy (trim st.content) then (st, [Effect.messageWarning (js "请输入需要分析的内容")])
  else
    let st1 := { st with loading := true }
    let req := Effect.request (Request.validate st.content)
    let r : AnalysisState × List Effect :=
      match out with
      | Outcome.resolved data =>
        if data.success then
          ({ st1 with analysis := some data.payload },
            [Effect.messageSuccess (js "内容分析完成！")])
        else (st1, [Effect.messageError (js "分析失败：" ++ toStr data.error)])
      | Outcome.rejected message => (st1, [Effect.messageError (js "请求失败：" ++ message)])
    ({ r.1 with loading := false }, req :: r.2)

/-- The text after `状态:` in the keyword-density block. -/
def densityLabel (status : JSString) : JSString :=
  if status = js "optimal" then js "适中"
  else if status = js "high" then js "过高" else js "过低"

/-- The `status` prop of the keyword-density `Progress`. -/
def densityGaugeStatus (status : JSString) : JSString :=
  if status = js "optimal" then js "success" else js "exception"

/-- The `percent` prop of the keyword-density `Progress`, in exact arithmetic. -/
def densityPercent (value : ℚ) : ℚ := value * 100 / 3

/-- Modelled from the spec: the status the scoring engine (not under `src/`)
    attaches to a density value: `value < 1.0` Low, `1.0 ≤ value ≤ 3.0` Optimal,
    `value > 3.0` High, in the lower-case spelling the page compares with. -/
def thresholdStatus (value : ℚ) : JSString :=
  if value < 1 then js "low" else if value ≤ 3 then js "optimal" else js "high"

/-- The bands of the analytics score histogram. -/
inductive ScoreBand where
  | low
  | middle
  | high
deriving DecidableEq, Repr

/-- Modelled from the spec: the analytics aggregator (not under `src/`) sorts an
    integer total score into the bands 0-59, 60-79 and 80-100. -/
def scoreBand (s : ℤ) : Option ScoreBand :=
  if 0 ≤ s ∧ s ≤ 59 then some ScoreBand.low
  else if 60 ≤ s ∧ s ≤ 79 then some ScoreBand.middle
  else if 80 ≤ s ∧ s ≤ 100 then some ScoreBand.high
  else none

/-! ## The history page (`ContentHistory.jsx`) -/

/-- One record of `response.data.contents`: the fields the history table reads. -/
structure HistoryRecord where
  id : JSString
  title : JSString
  keywords : JSString
  content_type : JSString
  total_score : ℚ
deriving DecidableEq, Repr

/-- The `pagination` cell. -/
structure Pagination where
  current : Nat
  pageSize : Nat
  total : Nat
deriving DecidableEq, Repr

/-- The payload of a search response: `contents` and the optional `total`. -/
structure SearchData where
  contents : List HistoryRecord
  total : Option Nat
deriving DecidableEq, Repr

/-- The `useState` cells of `ContentHistory`; `contentType` is absent after the
    `Select` was cleared. -/
structure HistoryState where
  contents : List HistoryRecord
  loading : Bool
  searchKeywords : JSString
  contentType : Option JSString
  pagination : Pagination
  selectedContent : Option HistoryRecord
  modalVisible : Bool
deriving DecidableEq, Repr

/-- `fetchContents(page = 1, keywords = '', type = '')`: an absent argument takes
    its default; `total` is `response.data.total || 0`. -/
def fetchContents (st : HistoryState) (page : Option Nat) (keywords type : Option JSString)
    (out : Outcome (Envelope SearchData)) : HistoryState × List Effect :=
  let st1 := { st with loading := true }
  let req := Effect.request
    (Request.search (page.getD 1) st.pagination.pageSize (keywords.getD []) (type.getD []))
  let r : HistoryState × List Effect :=
    match out with
    | Outcome.resolved data =>
      if data.success then
        ({ st1 with
            contents := data.payload.contents
            pagination :=
              { st.pagination with current := page.getD 1, total := data.payload.total.getD 0 } },
          [])
      else (st1, [Effect.messageError (js "获取内容列表失败：" ++ toStr data.error)])
    | Outcome.rejected message => (st1, [Effect.messageError (js "请求失败：" ++ message)])
  ({ r.1 with loading := false }, req :: r.2)

/-- `handleDelete`: on success the list is fetched again, with the outcome
    `searchOut` of that second request. -/
def handleDelete (st : HistoryState) (contentId : JSString) (out : Outcome (Envelope Unit))
    (searchOut : Outcome (Envelope SearchData)) : HistoryState × List Effect :=
  match out with
  | Outcome.resolved data =>
    if data.success then
      let r := fetchContents st (some st.pagination.current) (some st.searchKeywords)
        st.contentType searchOut
      (r.1, Effect.request (Request.delete contentId)
        :: Effect.messageSuccess (js "删除成功") :: r.2)
    else
      (st, [Effect.request (Request.delete contentId),
            Effect.messageError (js "删除失败：" ++ toStr data.error)])
  | Outcome.rejected message =>
    (st, [Effect.request (Request.delete contentId),
          Effect.messageError (js "请求失败：" ++ message)])

/-! ## The analytics page (`Analytics.jsx`) -/

/-- The payload `response.data.stats`. -/
structure Stats where
  total_content : Nat
  average_seo_score : ℚ
  article : Nat
  product : Nat
  daily_generation : List (JSString × Nat)
  score_distribution : List (JSString × Nat)
  keyword_distribution : List (JSString × Nat)
deriving DecidableEq, Repr

/-- The `useState` cells of `Analytics`. -/
structure AnalyticsState where
  loading : Bool
  stats : Option Stats
  timeRange : Nat
deriving DecidableEq, Repr

/-- The initial values of the `useState` cells of `Analytics`. -/
def AnalyticsState.init : AnalyticsState :=
  { loading := false, stats := none, timeRange := 30 }

/-- `fetchStats`: there is no `else` branch for `success = false`, and a
    rejected request is written to the console. -/
def fetchStats (st : AnalyticsState) (out : Outcome (Envelope Stats)) :
    AnalyticsState × List Effect :=
  let st1 := { st with loading := true }
  let req := Effect.request (Request.stats st.timeRange)
  let r : AnalyticsState × List Effect :=
    match out with
    | Outcome.resolved data =>
      if data.success then ({ st1 with stats := some data.payload }, []) else (st1, [])
    | Outcome.rejected message =>
      (st1, [Effect.consoleError (js "获取统计数据失败:") message])
  ({ r.1 with loading := false }, req :: r.2)

/-- A handler shows the user an error message that contains `reason`. -/
def ShowsReason (effects : List Effect) (reason : JSString) : Prop :=
  ∃ text ∈ shownErrors effects, reason <:+: text

/-- The `value`s of the two `Option`s of the content-type `Select`s
    (`ContentGenerator.jsx`, `ContentHistory.jsx`): the ContentType values. -/
def contentTypeValues : List JSString := [js "article", js "product"]

/-! ## Controls of the analytics page -/

/-- The `value`s of the three `Option`s of the time-range `Select`. -/
def timeRangeOptions : List Nat := [7, 30, 90]

/-- `fetchStats` up to its `await`: `setLoading(true)` and the request. -/
def fetchStatsSend (st : AnalyticsState) : AnalyticsState × List Effect :=
  ({ st with loading := true }, [Effect.request (Request.stats st.timeRange)])

/-- `fetchStats` after its `await`: the `try` body from line 17, the `catch`
    and the `finally` block. -/
def fetchStatsSettle (st : AnalyticsState) (out : Outcome (Envelope Stats)) :
    AnalyticsState × List Effect :=
  let r : AnalyticsState × List Effect :=
    match out with
    | Outcome.resolved data =>
      if data.success then ({ st with stats := some data.payload }, []) else (st, [])
    | Outcome.rejected message =>
      (st, [Effect.consoleError (js "获取统计数据失败:") message])
  ({ r.1 with loading := false }, r.2)

/-- The `Select`'s `onChange={setTimeRange}` followed by the effect
    `useEffect(() => { fetchStats(); }, [timeRange])`: the effect runs after the
    render in which `timeRange` differs from its previous value, and
    `fetchStats` then reads the new value. -/
def selectTimeRange (st : AnalyticsState) (value : Nat) (out : Outcome (Envelope Stats)) :
    AnalyticsState × List Effect :=
  if value = st.timeRange then (st, []) else fetchStats { st with timeRange := value } out

/-- The events of the analytics page after the first render: the `Select`
    changes `timeRange` to another of its option values, which starts a
    request, and a pending request settles. -/
inductive AnalyticsStep : AnalyticsState → AnalyticsState → Prop where
  | rangeSelected (st : AnalyticsState) (value : Nat) (h : value ∈ timeRangeOptions)
      (hne : value ≠ st.timeRange) :
      AnalyticsStep st (fetchStatsSend { st with timeRange := value }).1
  | statsSettled (st : AnalyticsState) (out : Outcome (Envelope Stats)) :
      AnalyticsStep st (fetchStatsSettle st out).1

/-- The states of the analytics page: the initial render, the effect that runs
    after it, and the steps from there. -/
inductive AnalyticsReachable : AnalyticsState → Prop where
  | init : AnalyticsReachable AnalyticsState.init
  | mounted : AnalyticsReachable (fetchStatsSend AnalyticsState.init).1
  | step (st st2 : AnalyticsState) (h : AnalyticsReachable st) (hs : AnalyticsStep st st2) :
      AnalyticsReachable st2

/-! ## Controls of the batch page: text area and progress bar -/

/-- The `value` prop of the keyword text area: `keywords.join('\n')`. -/
def textAreaValue (st : BatchState) : JSString := join lineFeed st.keywords

/-- A keyword as the data model describes it: non-empty, no white space at
    either end, no line feed. -/
def IsKeyword (k : JSString) : Prop :=
  k ≠ [] ∧ (∀ c, k.head? = some c → isWhiteSpace c = false) ∧
    (∀ c, k.getLast? = some c → isWhiteSpace c = false) ∧ lineFeed ∉ k

/-! ## Controls of the history page -/

/-- The initial values of the `useState` cells of `ContentHistory`. -/
def HistoryState.init : HistoryState :=
  { contents := [], loading := false, searchKeywords := [], contentType := some [],
    pagination := { current := 1, pageSize := 10, total := 0 },
    selectedContent := none, modalVisible := false }

/-- `fetchContents` up to its `await`: `setLoading(true)` and the request. -/
def fetchContentsSend (st : HistoryState) (page : Option Nat) (keywords type : Option JSString) :
    HistoryState × List Effect :=
  ({ st with loading := true },
    [Effect.request
      (Request.search (page.getD 1) st.pagination.pageSize (keywords.getD []) (type.getD []))])

/-- `fetchContents` after its `await`; `closure` is the `pagination` of the
    render in which the call was made, spread into the new pagination. -/
def fetchContentsSettle (st : HistoryState) (closure : Pagination) (page : Option Nat)
    (out : Outcome (Envelope SearchData)) : HistoryState × List Effect :=
  let r : HistoryState × List Effect :=
    match out with
    | Outcome.resolved data =>
      if data.success then
        ({ st with
            contents := data.payload.contents
            pagination :=
              { closure with current := page.getD 1, total := data.payload.total.getD 0 } },
          [])
      else (st, [Effect.messageError (js "获取内容列表失败：" ++ toStr data.error)])
    | Outcome.rejected message => (st, [Effect.messageError (js "请求失败：" ++ message)])
  ({ r.1 with loading := false }, r.2)

/-- `handleSearch`: `fetchContents(1, searchKeywords, contentType)`. -/
def handleSearch (st : HistoryState) (out : Outcome (Envelope SearchData)) :
    HistoryState × List Effect :=
  fetchContents st (some 1) (some st.searchKeywords) st.contentType out

/-- `handleTableChange`: `fetchContents(pagination.current, searchKeywords, contentType)`
    for the pagination object the table passes. -/
def handleTableChange (st : HistoryState) (pagination : Pagination)
    (out : Outcome (Envelope SearchData)) : HistoryState × List Effect :=
  fetchContents st (some pagination.current) (some st.searchKeywords) st.contentType out

/-- The states of the history page. Every call of `fetchContents` (from the
    mount effect, the search button, the table or a successful delete) sets
    `loading` and later settles, in whatever state the page then is, with the
    `pagination` of the state `st0` in which the call was made; the other
    events are the search input, the type `Select` (an option value, or absent
    after a clear), the detail button and the modal's cancel. -/
inductive HistoryReachable : HistoryState → Prop where
  | init : HistoryReachable HistoryState.init
  | fetchSent (st : HistoryState) (page : Option Nat) (keywords type : Option JSString)
      (h : HistoryReachable st) :
      HistoryReachable (fetchContentsSend st page keywords type).1
  | fetchSettled (st st0 : HistoryState) (page : Option Nat)
      (out : Outcome (Envelope SearchData)) (h : HistoryReachable st)
      (h0 : HistoryReachable st0) :
      HistoryReachable (fetchContentsSettle st st0.pagination page out).1
  | keywordsTyped (st : HistoryState) (value : JSString) (h : HistoryReachable st) :
      HistoryReachable { st with searchKeywords := value }
  | typeSelected (st : HistoryState) (value : Option JSString) (h : HistoryReachable st)
      (hv : value = none ∨ ∃ t ∈ contentTypeValues, value = some t) :
      HistoryReachable { st with contentType := value }
  | detailShown (st : HistoryState) (record : HistoryRecord) (h : HistoryReachable st) :
      HistoryReachable { st with selectedContent := some record, modalVisible := true }
  | modalClosed (st : HistoryState) (h : HistoryReachable st) :
      HistoryReachable { st with modalVisible := false }

/-! ## The two routers (`App.jsx`, `index.jsx`) -/

/-- A router definition: the navigation targets of its menu and the `path`s of
    its `Route`s, both in source order. -/
structure RouterTable where
  targets : List JSString
  routes : List JSString
deriving DecidableEq, Repr

/-- `App.jsx`: the `to` of the five `Link`s and the `path` of the five `Route`s. -/
def appRouter : RouterTable :=
  { targets := [js "/", js "/analysis", js "/history", js "/analytics", js "/batch"],
    routes := [js "/", js "/analysis", js "/history", js "/analytics", js "/batch"] }

/-- `index.jsx`, the bundle entry: the `key` of the five `menuItems`, which
    `handleMenuClick` passes to `navigate`, and the `path` of the five `Route`s. -/
def indexRouter : RouterTable :=
  { targets := [js "/", js "/generator", js "/history", js "/analysis", js "/batch"],
    routes := [js "/", js "/generator", js "/history", js "/analysis", js "/batch"] }

/-- The declared routes whose path is the navigation target. -/
def routesAt (r : RouterTable) (target : JSString) : List JSString :=
  r.routes.filter (fun path => decide (path = target))

/-! ## Concrete states -/

/-- The state after a file import whose response lists one blank keyword. -/
def blankImport : BatchState :=
  (handleFileUpload BatchState.init none [] (Outcome.resolved ⟨true, [js " "], none⟩)).1

/-- The keyword list `["seo", "seo"]` typed into the initial page. -/
def twoKeywords : BatchState := handleKeywordsInput BatchState.init (js "seo\nseo")

/-- Two result records, with the ids `c1` and `c2`. -/
def sampleRows : List ResultRow :=
  [⟨js "c1", js "seo", none, some 85⟩, ⟨js "c2", js "seo", none, some 62⟩]

/-- The state after the batch for `["seo", "seo"]` was sent and answered with
    `sampleRows`. -/
def generatedRows : BatchState :=
  (startBatchGenerationSettle (startBatchGenerationSend twoKeywords).1
    (Outcome.resolved ⟨true, sampleRows, none⟩)).1

/-- `generatedRows` with both rows selected in the table; the format is still `csv`. -/
def rowsSelection : BatchState := { generatedRows with selectedRows := sampleRows }

/-- `rowsSelection` after `JSON` was chosen in the format `Select`. -/
def jsonSelection : BatchState := { rowsSelection with exportFormat := js "json" }

/-- A stats payload without data. -/
def emptyStats : Stats :=
  { total_content := 0, average_seo_score := 0, article := 0, product := 0,
    daily_generation := [], score_distribution := [], keyword_distribution := [] }

/-- The response `{success: false, error: 'stats unavailable'}` of the stats endpoint. -/
def failedStatsResponse : Envelope Stats := ⟨false, emptyStats, some (js "stats unavailable")⟩

/-! ## Lemmas on strings -/

theorem split_ne_nil (sep : Nat) (s : JSString) : split sep s ≠ [] := by
  cases s with
  | nil => simp [split]
  | cons c cs =>
    unfold split
    split_ifs
    · simp
    · split <;> simp

theorem join_split (sep : Nat) (s : JSString) : join sep (split sep s) = s := by
  induction s with
  | nil => simp [split, join, List.intercalate]
  | cons c cs ih =>
    unfold split
    split_ifs with h
    · have hne := split_ne_nil sep cs
      cases hs : split sep cs with
      | nil => exact absurd hs hne
      | cons l ls =>
        rw [hs] at ih
        simp only [join, List.intercalate] at ih ⊢
        simp [List.intersperse, ih, h]
    · cases hs : split sep cs with
      | nil => exact absurd hs (split_ne_nil sep cs)
      | cons l ls =>
        rw [hs] at ih
        simp only [join, List.intercalate] at ih ⊢
        cases ls with
        | nil => simpa using ih
        | cons l2 ls2 => simpa [List.intersperse] using ih

theorem sep_not_mem_of_mem_split (sep : Nat) (s l : JSString) (h : l ∈ split sep s) :
    sep ∉ l := by
  induction s generalizing l with
  | nil =>
    simp [split] at h
    simp [h]
  | cons c cs ih =>
    unfold split at h
    split_ifs at h with hc
    · rcases List.mem_cons.mp h with rfl | h
      · simp
      · exact ih l h
    · cases hs : split sep cs with
      | nil => exact absurd hs (split_ne_nil sep cs)
      | cons l2 ls =>
        rw [hs] at h ih
        rcases List.mem_cons.mp h with rfl | h
        · intro hm
          rcases List.mem_cons.mp hm with rfl | hm
          · exact hc rfl
          · exact ih l2 (List.mem_cons_self _ _) hm
        · exact ih l (List.mem_cons_of_mem _ h)

theorem trim_decomposition (l : JSString) :
    l = l.takeWhile isWhiteSpace ++ trim l
          ++ (l.dropWhile isWhiteSpace).rtakeWhile isWhiteSpace := by
  have h1 : (l.dropWhile isWhiteSpace).rdropWhile isWhiteSpace
      ++ (l.dropWhile isWhiteSpace).rtakeWhile isWhiteSpace = l.dropWhile isWhiteSpace := by
    unfold List.rdropWhile List.rtakeWhile
    rw [← List.reverse_append, List.takeWhile_append_dropWhile, List.reverse_reverse]
  unfold trim
  rw [List.append_assoc, h1, List.takeWhile_append_dropWhile]

theorem mem_rtakeWhile_imp (p : Nat → Bool) (l : List Nat) (c : Nat)
    (h : c ∈ l.rtakeWhile p) : p c = true := by
  unfold List.rtakeWhile at h
  exact List.mem_takeWhile_imp (List.mem_reverse.mp h)

theorem trim_head_not_whiteSpace (l : JSString) (c : Nat) (h : (trim l).head? = some c) :
    isWhiteSpace c = false := by
  unfold trim at h
  obtain ⟨t, ht⟩ := List.rdropWhile_prefix isWhiteSpace (l.dropWhile isWhiteSpace)
  have hd := List.head?_dropWhile_not isWhiteSpace l
  cases hr : (l.dropWhile isWhiteSpace).rdropWhile isWhiteSpace with
  | nil => rw [hr] at h; simp at h
  | cons a r =>
    rw [hr] at h ht
    simp only [List.head?_cons, Option.some.injEq] at h
    rw [← ht] at hd
    simpa [h] using hd

theorem trim_last_not_whiteSpace (l : JSString) (c : Nat) (h : (trim l).getLast? = some c) :
    isWhiteSpace c = false := by
  unfold trim at h
  have hne : (l.dropWhile isWhiteSpace).rdropWhile isWhiteSpace ≠ [] := by
    intro h0
    rw [h0] at h
    simp at h
  have hl := List.rdropWhile_last_not isWhiteSpace (l.dropWhile isWhiteSpace) hne
  rw [List.getLast?_eq_getLast _ hne] at h
  simp only [Option.some.injEq] at h
  rw [h] at hl
  simpa using hl

theorem trim_sublist (l : JSString) : (trim l).Sublist l :=
  ((List.rdropWhile_prefix isWhiteSpace _).sublist).trans (List.dropWhile_suffix _).sublist

/-! ## Keyword parsing -/

/-- C1: `handleKeywordsInput(t)` sets the keyword list to the lines of `t` (the
    pieces between line feeds, which joined by line feeds give `t` back and hold
    no line feed), each trimmed (the line less a white-space prefix and a
    white-space suffix, with no white space left at either end), without the
    lines that are empty after trimming. Every keyword is non-empty, starts and
    ends with a non-white-space unit and holds no line feed; the keywords are the
    trimmed lines in their order (a sublist), and every non-empty trimmed line
    occurs as often among the keywords as among the trimmed lines. -/
theorem handleKeywordsInput_keywords (st : BatchState) (t : JSString) :
    join lineFeed (split lineFeed t) = t ∧
    (∀ l ∈ split lineFeed t, lineFeed ∉ l) ∧
    (∀ l : JSString, ∃ pre suf, l = pre ++ trim l ++ suf ∧
      (∀ c ∈ pre, isWhiteSpace c = true) ∧ (∀ c ∈ suf, isWhiteSpace c = true) ∧
      (∀ c, (trim l).head? = some c → isWhiteSpace c = false) ∧
      (∀ c, (trim l).getLast? = some c → isWhiteSpace c = false)) ∧
    (handleKeywordsInput st t).keywords
      = ((split lineFeed t).map trim).filter (fun k => decide (k ≠ [])) ∧
    (∀ k ∈ (handleKeywordsInput st t).keywords,
      k ≠ [] ∧ (∀ c, k.head? = some c → isWhiteSpace c = false) ∧
      (∀ c, k.getLast? = some c → isWhiteSpace c = false) ∧ lineFeed ∉ k) ∧
    ((handleKeywordsInput st t).keywords).Sublist ((split lineFeed t).map trim) ∧
    (∀ k : JSString, k ≠ [] →
      ((handleKeywordsInput st t).keywords).count k = ((split lineFeed t).map trim).count k) := by
  have hfilter : (fun k : JSString => truthy k) = fun k => decide (k ≠ []) := by
    funext k
    cases k <;> simp [truthy]
  refine ⟨join_split _ _, sep_not_mem_of_mem_split _ _, ?_, ?_, ?_, ?_, ?_⟩
  · intro l
    exact ⟨_, _, trim_decomposition l, fun c hc => List.mem_takeWhile_imp hc,
      fun c hc => mem_rtakeWhile_imp _ _ c hc, trim_head_not_whiteSpace l,
      trim_last_not_whiteSpace l⟩
  · simp only [handleKeywordsInput]
    rw [← hfilter]
  · intro k hk
    simp only [handleKeywordsInput, List.mem_filter, List.mem_map] at hk
    obtain ⟨⟨l, hl, rfl⟩, hne⟩ := hk
    refine ⟨?_, trim_head_not_whiteSpace l, trim_last_not_whiteSpace l, ?_⟩
    · intro h0
      rw [h0] at hne
      simp [truthy] at hne
    · intro hm
      exact sep_not_mem_of_mem_split _ _ l hl ((trim_sublist l).subset hm)
  · exact List.filter_sublist _
  · intro k hk
    simp only [handleKeywordsInput]
    rw [List.count_filter]
    cases k with
    | nil => exact absurd rfl hk
    | cons a r => simp [truthy]

/-! ## Rejection of an empty batch -/

theorem mem_of_mem_split (sep : Nat) (s l : JSString) (c : Nat) (h : l ∈ split sep s)
    (hc : c ∈ l) : c ∈ s := by
  induction s generalizing l with
  | nil =>
    simp [split] at h
    rw [h] at hc
    exact hc
  | cons a cs ih =>
    unfold split at h
    split_ifs at h with ha
    · rcases List.mem_cons.mp h with rfl | h
      · simp at hc
      · exact List.mem_cons_of_mem _ (ih l h hc)
    · cases hs : split sep cs with
      | nil => exact absurd hs (split_ne_nil sep cs)
      | cons l2 ls =>
        rw [hs] at h ih
        rcases List.mem_cons.mp h with rfl | h
        · rcases List.mem_cons.mp hc with rfl | hc
          · exact List.mem_cons_self _ _
          · exact List.mem_cons_of_mem _ (ih l2 (List.mem_cons_self _ _) hc)
        · exact List.mem_cons_of_mem _ (ih l (List.mem_cons_of_mem _ h) hc)

theorem trim_eq_nil_of_blank (l : JSString) (h : ∀ c ∈ l, isWhiteSpace c = true) :
    trim l = [] := by
  have h1 : l.dropWhile isWhiteSpace = [] := List.dropWhile_eq_nil_iff.mpr h
  simp [trim, h1]

theorem handleKeywordsInput_blank (st : BatchState) (t : JSString)
    (h : ∀ c ∈ t, isWhiteSpace c = true) : (handleKeywordsInput st t).keywords = [] := by
  simp only [handleKeywordsInput]
  rw [List.filter_eq_nil_iff]
  intro k hk
  obtain ⟨l, hl, rfl⟩ := List.mem_map.mp hk
  rw [trim_eq_nil_of_blank l (fun c hc => h c (mem_of_mem_split _ _ l c hl hc))]
  simp [truthy]

/-- C2, as stated, fails: after a file import that returned the single keyword
    `" "` the keyword list consists only of blank strings, yet
    `startBatchGeneration` posts it to `/api/batch/generate` and sets `progress`. -/
theorem startBatchGeneration_blank_list_is_sent :
    BatchReachable blankImport ∧
    (∀ k ∈ blankImport.keywords, trim k = []) ∧
    sentRequests (startBatchGeneration blankImport (Outcome.rejected (js "timeout"))).2
      = [Request.batchGenerate [js " "] (js "article")] ∧
    blankImport.progress = 0 ∧
    (startBatchGeneration blankImport (Outcome.rejected (js "timeout"))).1.progress = 100 := by
  refine ⟨?_, by decide, by decide, by decide, by decide⟩
  exact BatchReachable.step _ _ BatchReachable.init (BatchStep.fileUpload _ _ _ _)

/-- C2, amended: when the keyword list is empty, in particular after the text
    area received a text of white space only, `startBatchGeneration` sends no
    request, shows the warning and nothing else, and leaves every state cell as
    it was. -/
theorem startBatchGeneration_empty_rejected (st : BatchState)
    (out : Outcome (Envelope (List ResultRow)))
    (h : st.keywords = [] ∨
      ∃ (st0 : BatchState) (t : JSString),
        (∀ c ∈ t, isWhiteSpace c = true) ∧ st = handleKeywordsInput st0 t) :
    sentRequests (startBatchGeneration st out).2 = [] ∧
    (startBatchGeneration st out).2 = [Effect.messageWarning (js "请先添加关键词")] ∧
    (startBatchGeneration st out).1 = st := by
  have hk : st.keywords = [] := by
    rcases h with h | ⟨st0, t, ht, rfl⟩
    · exact h
    · exact handleKeywordsInput_blank st0 t ht
  simp [startBatchGeneration, hk, sentRequests]

/-- The amended C2 at the text `"  \n "` typed into the initial page. -/
theorem startBatchGeneration_empty_rejected_witness :
    (startBatchGeneration (handleKeywordsInput BatchState.init [32, 32, 10, 32])
        (Outcome.rejected (js "timeout"))).1
      = handleKeywordsInput BatchState.init [32, 32, 10, 32] :=
  (startBatchGeneration_empty_rejected (handleKeywordsInput BatchState.init [32, 32, 10, 32])
    (Outcome.rejected (js "timeout"))
    (Or.inr ⟨BatchState.init, [32, 32, 10, 32], by decide, rfl⟩)).2.2

/-! ## Colour of the score tag -/

/-- C3: for a numeric score `s` the tag is green iff `s ≥ 80`, orange iff
    `60 ≤ s < 80` and red iff `s < 60`; the three colours are distinct and one
    of them applies; for an integer score in `[0, 100]` the colour is red,
    orange or green exactly when the score lies in the histogram band 0-59,
    60-79 or 80-100. -/
theorem scoreTagColor_bands (s : ℚ) :
    (scoreTagColor (some s) = js "green" ↔ s ≥ 80) ∧
    (scoreTagColor (some s) = js "orange" ↔ 60 ≤ s ∧ s < 80) ∧
    (scoreTagColor (some s) = js "red" ↔ s < 60) ∧
    (js "green" ≠ js "orange" ∧ js "green" ≠ js "red" ∧ js "orange" ≠ js "red") ∧
    (scoreTagColor (some s) = js "green" ∨ scoreTagColor (some s) = js "orange" ∨
      scoreTagColor (some s) = js "red") ∧
    (∀ n : ℤ, 0 ≤ n → n ≤ 100 →
      (scoreTagColor (some (n : ℚ)) = js "red" ↔ scoreBand n = some ScoreBand.low) ∧
      (scoreTagColor (some (n : ℚ)) = js "orange" ↔ scoreBand n = some ScoreBand.middle) ∧
      (scoreTagColor (some (n : ℚ)) = js "green" ↔ scoreBand n = some ScoreBand.high)) := by
  have go : js "green" ≠ js "orange" := by decide
  have gr : js "green" ≠ js "red" := by decide
  have orr : js "orange" ≠ js "red" := by decide
  have key : ∀ q : ℚ,
      (scoreTagColor (some q) = js "green" ↔ q ≥ 80) ∧
      (scoreTagColor (some q) = js "orange" ↔ 60 ≤ q ∧ q < 80) ∧
      (scoreTagColor (some q) = js "red" ↔ q < 60) := by
    intro q
    unfold scoreTagColor jsGe
    by_cases h80 : q ≥ 80
    · have h60 : q ≥ 60 := by linarith
      have hn : ¬ q < 60 := by linarith
      have hn2 : ¬ q < 80 := by linarith
      simp [h80, go, gr, hn, hn2]
    · by_cases h60 : q ≥ 60
      · have hn : ¬ q < 60 := by linarith
        have hlt : q < 80 := by linarith
        simp [h80, h60, go.symm, orr, hn, hlt]
      · have hlt : q < 60 := by linarith
        simp [h80, h60, gr.symm, orr.symm, hlt]
  refine ⟨(key s).1, (key s).2.1, (key s).2.2, ⟨go, gr, orr⟩, ?_, ?_⟩
  · by_cases h80 : s ≥ 80
    · exact Or.inl ((key s).1.mpr h80)
    · by_cases h60 : s ≥ 60
      · exact Or.inr (Or.inl ((key s).2.1.mpr ⟨h60, by linarith⟩))
      · exact Or.inr (Or.inr ((key s).2.2.mpr (by linarith)))
  · intro n h0 h100
    have c1 : ((n : ℚ) < 60 ↔ n < 60) := by exact_mod_cast Iff.rfl
    have c2 : ((60 : ℚ) ≤ (n : ℚ) ↔ 60 ≤ n) := by exact_mod_cast Iff.rfl
    have c3 : ((n : ℚ) < 80 ↔ n < 80) := by exact_mod_cast Iff.rfl
    have c4 : ((n : ℚ) ≥ 80 ↔ 80 ≤ n) := by exact_mod_cast Iff.rfl
    rw [(key n).1, (key n).2.1, (key n).2.2, c1, c2, c3, c4]
    unfold scoreBand
    refine ⟨?_, ?_, ?_⟩ <;> split_ifs <;> (try simp) <;> omega

/-! ## Failing requests and the messages shown -/

theorem showsReason_of_shown (effects : List Effect) (pre reason : JSString)
    (h : pre ++ reason ∈ shownErrors effects) : ShowsReason effects reason :=
  ⟨pre ++ reason, h, (List.suffix_append pre reason).isInfix⟩

/-- C4 fails on `fetchStats`, the one handler without `message.error`: when the
    stats request is answered with `success = false` and the error
    `stats unavailable`, the handler sends the request and does nothing else, so
    the reason is dropped without trace; when the request is rejected with the
    message `Network Error`, the reason goes to the console only. In neither
    case is an error message shown to the user. -/
theorem fetchStats_failure_not_shown :
    (fetchStats AnalyticsState.init (Outcome.resolved failedStatsResponse)).2
      = [Effect.request (Request.stats 30)] ∧
    ¬ ShowsReason (fetchStats AnalyticsState.init (Outcome.resolved failedStatsResponse)).2
        (js "stats unavailable") ∧
    (fetchStats AnalyticsState.init (Outcome.rejected (js "Network Error"))).2
      = [Effect.request (Request.stats 30),
         Effect.consoleError (js "获取统计数据失败:") (js "Network Error")] ∧
    ¬ ShowsReason (fetchStats AnalyticsState.init (Outcome.rejected (js "Network Error"))).2
        (js "Network Error") := by
  have h1 : (fetchStats AnalyticsState.init (Outcome.resolved failedStatsResponse)).2
      = [Effect.request (Request.stats 30)] := by decide
  have h2 : (fetchStats AnalyticsState.init (Outcome.rejected (js "Network Error"))).2
      = [Effect.request (Request.stats 30),
         Effect.consoleError (js "获取统计数据失败:") (js "Network Error")] := by decide
  refine ⟨h1, ?_, h2, ?_⟩
  · rintro ⟨text, ht, -⟩
    rw [h1] at ht
    simp [shownErrors] at ht
  · rintro ⟨text, ht, -⟩
    rw [h2] at ht
    simp [shownErrors] at ht

/-- What the other handlers do with a failing request: `handleSubmit`,
    `handleAnalyze`, `fetchContents`, `handleDelete`, `handleFileUpload` and
    `startBatchGeneration`, whenever they send their request and it fails (a
    response with `success = false` whose error is `reason`, or a rejection
    with message `reason`), show an error message that contains `reason`, and
    so does `exportContents` when its request is rejected. -/
theorem sibling_handlers_show_reason (reason : JSString) :
    (∀ (st : GeneratorState) (keywords contentType : JSString)
        (data : Envelope GeneratedContent),
        data.success = false → data.error = some reason →
        ShowsReason (handleSubmit st keywords contentType (Outcome.resolved data)).2 reason) ∧
    (∀ (st : GeneratorState) (keywords contentType : JSString),
        ShowsReason (handleSubmit st keywords contentType (Outcome.rejected reason)).2 reason) ∧
    (∀ (st : AnalysisState) (data : Envelope Validation),
        truthy (trim st.content) = true → data.success = false → data.error = some reason →
        ShowsReason (handleAnalyze st (Outcome.resolved data)).2 reason) ∧
    (∀ (st : AnalysisState), truthy (trim st.content) = true →
        ShowsReason (handleAnalyze st (Outcome.rejected reason)).2 reason) ∧
    (∀ (st : HistoryState) (page : Option Nat) (keywords type : Option JSString)
        (data : Envelope SearchData),
        data.success = false → data.error = some reason →
        ShowsReason (fetchContents st page keywords type (Outcome.resolved data)).2 reason) ∧
    (∀ (st : HistoryState) (page : Option Nat) (keywords type : Option JSString),
        ShowsReason (fetchContents st page keywords type (Outcome.rejected reason)).2 reason) ∧
    (∀ (st : HistoryState) (contentId : JSString) (data : Envelope Unit)
        (searchOut : Outcome (Envelope SearchData)),
        data.success = false → data.error = some reason →
        ShowsReason (handleDelete st contentId (Outcome.resolved data) searchOut).2 reason) ∧
    (∀ (st : HistoryState) (contentId : JSString) (searchOut : Outcome (Envelope SearchData)),
        ShowsReason (handleDelete st contentId (Outcome.rejected reason) searchOut).2 reason) ∧
    (∀ (st : BatchState) (status : Option JSString) (file : Blob)
        (data : Envelope (List JSString)),
        status ≠ some (js "uploading") → data.success = false → data.error = some reason →
        ShowsReason (handleFileUpload st status file (Outcome.resolved data)).2 reason) ∧
    (∀ (st : BatchState) (status : Option JSString) (file : Blob),
        status ≠ some (js "uploading") →
        ShowsReason (handleFileUpload st status file (Outcome.rejected reason)).2 reason) ∧
    (∀ (st : BatchState) (data : Envelope (List ResultRow)),
        st.keywords ≠ [] → data.success = false → data.error = some reason →
        ShowsReason (startBatchGeneration st (Outcome.resolved data)).2 reason) ∧
    (∀ (st : BatchState), st.keywords ≠ [] →
        ShowsReason (startBatchGeneration st (Outcome.rejected reason)).2 reason) ∧
    (∀ (st : BatchState) (now : Nat),
        ShowsReason (exportContents st now (Outcome.rejected reason)).2 reason) := by
  refine ⟨?_, ?_, ?_, ?_, ?_, ?_, ?_, ?_, ?_, ?_, ?_, ?_, ?_⟩
  · intro st keywords contentType data hs he
    apply showsReason_of_shown _ (js "内容生成失败：")
    simp [handleSubmit, hs, he, shownErrors, toStr]
  · intro st keywords contentType
    apply showsReason_of_shown _ (js "请求失败：")
    simp [handleSubmit, shownErrors]
  · intro st data hc hs he
    apply showsReason_of_shown _ (js "分析失败：")
    simp [handleAnalyze, hc, hs, he, shownErrors, toStr]
  · intro st hc
    apply showsReason_of_shown _ (js "请求失败：")
    simp [handleAnalyze, hc, shownErrors]
  · intro st page keywords type data hs he
    apply showsReason_of_shown _ (js "获取内容列表失败：")
    simp [fetchContents, hs, he, shownErrors, toStr]
  · intro st page keywords type
    apply showsReason_of_shown _ (js "请求失败：")
    simp [fetchContents, shownErrors]
  · intro st contentId data searchOut hs he
    apply showsReason_of_shown _ (js "删除失败：")
    simp [handleDelete, hs, he, shownErrors, toStr]
  · intro st contentId searchOut
    apply showsReason_of_shown _ (js "请求失败：")
    simp [handleDelete, shownErrors]
  · intro st status file data hst hs he
    apply showsReason_of_shown _ (js "导入失败：")
    simp [handleFileUpload, hst, hs, he, shownErrors, toStr]
  · intro st status file hst
    apply showsReason_of_shown _ (js "请求失败：")
    simp [handleFileUpload, hst, shownErrors]
  · intro st data hk hs he
    apply showsReason_of_shown _ (js "生成失败：")
    simp [startBatchGeneration, startBatchGenerationSend, startBatchGenerationSettle, hk, hs,
      he, shownErrors, toStr]
  · intro st hk
    apply showsReason_of_shown _ (js "请求失败：")
    simp [startBatchGeneration, startBatchGenerationSend, startBatchGenerationSettle, hk,
      shownErrors]
  · intro st now
    apply showsReason_of_shown _ (js "导出失败：")
    simp [exportContents, shownErrors]

/-! ## Export: file name, request body, button -/

theorem numberToString_ne_nil (n : Nat) : numberToString n ≠ [] := by
  unfold numberToString
  split_ifs with h
  · simp
  · simpa using Nat.digits_ne_nil_iff_ne_zero.mpr h

theorem numberToString_digit (n c : Nat) (h : c ∈ numberToString n) : 48 ≤ c ∧ c ≤ 57 := by
  unfold numberToString at h
  split_ifs at h with h0
  · simp at h
    omega
  · simp only [List.mem_map, List.mem_reverse] at h
    obtain ⟨d, hd, rfl⟩ := h
    have := Nat.digits_lt_base (by norm_num : 1 < 10) hd
    omega

theorem numberToString_value (n : Nat) :
    Nat.ofDigits 10 (((numberToString n).map (fun c => c - 48)).reverse) = n := by
  unfold numberToString
  split_ifs with h0
  · simp [h0]
  · have hmap : ((Nat.digits 10 n).reverse.map (fun d => 48 + d)).map (fun c => c - 48)
        = (Nat.digits 10 n).reverse := by
      rw [List.map_map]
      conv_rhs => rw [← List.map_id (Nat.digits 10 n).reverse]
      apply List.map_congr_left
      intro d _
      simp
    rw [hmap, List.reverse_reverse, Nat.ofDigits_digits]

theorem numberToString_head (n : Nat) (h : n ≠ 0) : (numberToString n).head? ≠ some 48 := by
  unfold numberToString
  rw [if_neg h]
  have hne : Nat.digits 10 n ≠ [] := Nat.digits_ne_nil_iff_ne_zero.mpr h
  have hlast := Nat.getLast_digit_ne_zero 10 h
  rw [List.head?_map, List.head?_reverse, List.getLast?_eq_getLast _ hne]
  simpa using hlast

theorem handleFileUpload_exportFormat (st : BatchState) (status : Option JSString) (file : Blob)
    (out : Outcome (Envelope (List JSString))) :
    (handleFileUpload st status file out).1.exportFormat = st.exportFormat := by
  unfold handleFileUpload
  split_ifs
  · cases out with
    | resolved data =>
      simp only
      split_ifs <;> rfl
    | rejected message => rfl
  · rfl

theorem startBatchGenerationSettle_exportFormat (st : BatchState)
    (out : Outcome (Envelope (List ResultRow))) :
    (startBatchGenerationSettle st out).1.exportFormat = st.exportFormat := by
  unfold startBatchGenerationSettle
  cases out with
  | resolved data =>
    simp only
    split_ifs <;> rfl
  | rejected message => rfl

theorem exportContents_state (st : BatchState) (now : Nat) (out : Outcome Blob) :
    (exportContents st now out).1 = st := by
  unfold exportContents
  cases out <;> rfl

/-- A step of the batch page keeps `exportFormat`, or it is the format `Select`
    setting one of its two option values. -/
theorem BatchStep.exportFormat_frame (st st2 : BatchState) (hs : BatchStep st st2) :
    st2.exportFormat = st.exportFormat ∨
      ∃ value ∈ exportFormatOptions, st2 = { st with exportFormat := value } := by
  cases hs with
  | keywordsInput value => exact Or.inl rfl
  | fileUpload status file out => exact Or.inl (handleFileUpload_exportFormat _ _ _ _)
  | generateRejected h => exact Or.inl rfl
  | generateSent h => exact Or.inl rfl
  | generateSettled out => exact Or.inl (startBatchGenerationSettle_exportFormat _ _)
  | formatSelected value h => exact Or.inr ⟨value, h, rfl⟩
  | rowsSelected rows => exact Or.inl rfl
  | exportClicked now out h => exact Or.inl (by rw [exportContents_state])

theorem BatchReachable.exportFormat_mem (st : BatchState) (h : BatchReachable st) :
    st.exportFormat ∈ exportFormatOptions := by
  induction h with
  | init => decide
  | step st st2 _ hs ih =>
    rcases BatchStep.exportFormat_frame st st2 hs with heq | ⟨value, hv, rfl⟩
    · rw [heq]
      exact ih
    · exact hv

theorem mem_exportFormatOptions (f : JSString) (h : f ∈ exportFormatOptions) :
    f = js "csv" ∨ f = js "json" := by
  simpa [exportFormatOptions] using h

theorem rowsSelection_reachable : BatchReachable rowsSelection :=
  BatchReachable.step _ _
    (BatchReachable.step _ _
      (BatchReachable.step _ _
        (BatchReachable.step _ _ BatchReachable.init
          (BatchStep.keywordsInput BatchState.init (js "seo\nseo")))
        (BatchStep.generateSent twoKeywords (by decide)))
      (BatchStep.generateSettled _ (Outcome.resolved ⟨true, sampleRows, none⟩)))
    (BatchStep.rowsSelected generatedRows sampleRows)

theorem jsonSelection_reachable : BatchReachable jsonSelection :=
  BatchReachable.step _ _ rowsSelection_reachable
    (BatchStep.formatSelected rowsSelection (js "json") (by decide))

/-- C5: an export answered at clock value `now` downloads under the name
    `seo_contents_` followed by the decimal representation of `now` (digits
    only, at least one, of value `now`, no leading zero unless `now = 0`), a
    dot and the selected format, which in a reachable state is `csv` or `json`. -/
theorem exportContents_fileName (st : BatchState) (h : BatchReachable st) (now : Nat)
    (data : Blob) :
    downloads (exportContents st now (Outcome.resolved data)).2
      = [(js "seo_contents_" ++ numberToString now ++ js "." ++ st.exportFormat, data)] ∧
    (st.exportFormat = js "csv" ∨ st.exportFormat = js "json") ∧
    numberToString now ≠ [] ∧
    (∀ c ∈ numberToString now, 48 ≤ c ∧ c ≤ 57) ∧
    Nat.ofDigits 10 (((numberToString now).map (fun c => c - 48)).reverse) = now ∧
    (now ≠ 0 → (numberToString now).head? ≠ some 48) := by
  refine ⟨?_, mem_exportFormatOptions _ (BatchReachable.exportFormat_mem st h),
    numberToString_ne_nil now, numberToString_digit now, numberToString_value now,
    numberToString_head now⟩
  simp [exportContents, downloads]

/-- C5 at the initial state, clock value 1730000000000 and an empty payload. -/
theorem exportContents_fileName_witness :
    downloads (exportContents BatchState.init 1730000000000 (Outcome.resolved [])).2
      = [(js "seo_contents_" ++ numberToString 1730000000000 ++ js "."
            ++ BatchState.init.exportFormat, [])] :=
  (exportContents_fileName BatchState.init BatchReachable.init 1730000000000 []).1

/-- C6: in a reachable state `exportFormat` is `csv` or `json`; it is `csv`
    initially and a step changes it only by the `Select` setting one of its two
    option values; every export sends one request, whose `format` is the
    current `exportFormat` and whose `content_ids` are the `content_id`s of the
    selected rows, position by position. -/
theorem exportContents_request (st : BatchState) (h : BatchReachable st) (now : Nat)
    (out : Outcome Blob) :
    (st.exportFormat = js "csv" ∨ st.exportFormat = js "json") ∧
    BatchState.init.exportFormat = js "csv" ∧
    (∀ st2, BatchStep st st2 → st2.exportFormat ≠ st.exportFormat →
      ∃ value ∈ exportFormatOptions, st2 = { st with exportFormat := value }) ∧
    (∃ ids : List JSString,
      sentRequests (exportContents st now out).2 = [Request.batchExport ids st.exportFormat] ∧
      ids.length = st.selectedRows.length ∧
      ∀ (i : Nat) (hi : i < ids.length) (hj : i < st.selectedRows.length),
        ids.get ⟨i, hi⟩ = (st.selectedRows.get ⟨i, hj⟩).content_id) := by
  refine ⟨mem_exportFormatOptions _ (BatchReachable.exportFormat_mem st h), rfl, ?_, ?_⟩
  · intro st2 hs hne
    rcases BatchStep.exportFormat_frame st st2 hs with heq | hsel
    · exact absurd heq hne
    · exact hsel
  · refine ⟨st.selectedRows.map (fun row => row.content_id), ?_, by simp, ?_⟩
    · cases out <;> simp [exportContents, sentRequests]
    · intro i hi hj
      simp

/-- C6 at a state with two selected rows: choosing `JSON` in the `Select` is
    the step that changed the format from `csv`, and the export then sends one
    request with the ids `c1`, `c2` of the selected rows, in their order, and
    the format `json`. -/
theorem exportContents_request_witness :
    (∃ value ∈ exportFormatOptions,
      jsonSelection = { rowsSelection with exportFormat := value }) ∧
    (jsonSelection.exportFormat = js "csv" ∨ jsonSelection.exportFormat = js "json") ∧
    sentRequests (exportContents jsonSelection 1730000000000 (Outcome.resolved [])).2
      = [Request.batchExport [js "c1", js "c2"] (js "json")] := by
  have hchange :=
    (exportContents_request rowsSelection rowsSelection_reachable 0
      (Outcome.rejected [])).2.2.1
      jsonSelection (BatchStep.formatSelected rowsSelection (js "json") (by decide))
      (by decide)
  obtain ⟨hfmt, -, -, ids, hreq, hlen, hget⟩ :=
    exportContents_request jsonSelection jsonSelection_reachable 1730000000000
      (Outcome.resolved [])
  refine ⟨hchange, hfmt, ?_⟩
  have hlen2 : ids.length = 2 := hlen
  have hids : ids = [js "c1", js "c2"] := by
    apply List.ext_get
    · exact hlen2
    · intro i h1 h2
      have hi : i < 2 := hlen2 ▸ h1
      rw [hget i h1 (by exact hi)]
      interval_cases i <;> rfl
  rw [hreq, hids]
  rfl

/-- C7: the export button is enabled iff `selectedRows` is non-empty, and an
    export issued while the button is enabled sends exactly one request, with a
    non-empty `content_ids` list. -/
theorem export_button_nonempty (st : BatchState) (now : Nat) (out : Outcome Blob) :
    (exportDisabled st = false ↔ st.selectedRows ≠ []) ∧
    (exportDisabled st = false →
      ∃ ids : List JSString, ids ≠ [] ∧
        sentRequests (exportContents st now out).2
          = [Request.batchExport ids st.exportFormat]) := by
  have hiff : exportDisabled st = false ↔ st.selectedRows ≠ [] := by
    simp [exportDisabled]
  refine ⟨hiff, fun hd => ⟨st.selectedRows.map (fun row => row.content_id), ?_, ?_⟩⟩
  · simpa using hiff.mp hd
  · cases out <;> simp [exportContents, sentRequests]

/-! ## The batch request -/

/-- C8: with a non-empty keyword list `startBatchGeneration` sends exactly one
    request, `batchGenerate` with `keywords_list` the keyword list as it is and
    `type` one of the ContentType values (it is `article`); on a response with
    `success = true` the result list becomes `response.data.results` as received. -/
theorem startBatchGeneration_request (st : BatchState)
    (out : Outcome (Envelope (List ResultRow))) (h : st.keywords ≠ []) :
    (∃ t ∈ contentTypeValues,
      sentRequests (startBatchGeneration st out).2 = [Request.batchGenerate st.keywords t]) ∧
    (∀ data : Envelope (List ResultRow), data.success = true →
      (startBatchGeneration st (Outcome.resolved data)).1.generatedContents = data.payload) := by
  refine ⟨⟨js "article", by decide, ?_⟩, ?_⟩
  · cases out with
    | resolved data =>
      by_cases hs : data.success = true <;>
        simp [startBatchGeneration, startBatchGenerationSend, startBatchGenerationSettle, h, hs,
          sentRequests]
    | rejected message =>
      simp [startBatchGeneration, startBatchGenerationSend, startBatchGenerationSettle, h,
        sentRequests]
  · intro data hs
    simp [startBatchGeneration, startBatchGenerationSend, startBatchGenerationSettle, h, hs]

/-- C8 at the keyword list `["seo", "seo"]` and a rejected request. -/
theorem startBatchGeneration_request_witness :
    ∃ t ∈ contentTypeValues,
      sentRequests (startBatchGeneration twoKeywords (Outcome.rejected (js "timeout"))).2
        = [Request.batchGenerate twoKeywords.keywords t] :=
  (startBatchGeneration_request twoKeywords (Outcome.rejected (js "timeout")) (by decide)).1

/-! ## The keyword-density display -/

/-- C9: when the status of a density follows the thresholds, the page shows
    `适中` iff `1 ≤ value ≤ 3` and the gauge status `success` iff
    `1 ≤ value ≤ 3`, `过高` iff `value > 3`, `过低` iff `value < 1`, the gauge
    status `exception` outside `[1, 3]`; the gauge percent `value * 100 / 3` is
    100 iff `value = 3`, above 100 iff the status is high and below `100 / 3`
    iff the status is low. -/
theorem density_display (d : KeywordDensity) (h : d.status = thresholdStatus d.value) :
    (densityLabel d.status = js "适中" ↔ 1 ≤ d.value ∧ d.value ≤ 3) ∧
    (densityGaugeStatus d.status = js "success" ↔ 1 ≤ d.value ∧ d.value ≤ 3) ∧
    (densityLabel d.status = js "过高" ↔ d.value > 3) ∧
    (densityLabel d.status = js "过低" ↔ d.value < 1) ∧
    (d.value < 1 ∨ d.value > 3 → densityGaugeStatus d.status = js "exception") ∧
    (densityPercent d.value = 100 ↔ d.value = 3) ∧
    (densityPercent d.value > 100 ↔ d.status = js "high") ∧
    (densityPercent d.value < 100 / 3 ↔ d.status = js "low") := by
  have e1 : js "low" ≠ js "optimal" := by decide
  have e2 : js "low" ≠ js "high" := by decide
  have e3 : js "high" ≠ js "optimal" := by decide
  have l1 : js "适中" ≠ js "过高" := by decide
  have l2 : js "适中" ≠ js "过低" := by decide
  have l3 : js "过高" ≠ js "过低" := by decide
  have g1 : js "success" ≠ js "exception" := by decide
  have p1 : densityPercent d.value = 100 ↔ d.value = 3 := by
    unfold densityPercent
    constructor <;> intro hp <;> linarith
  have p2 : densityPercent d.value > 100 ↔ d.value > 3 := by
    unfold densityPercent
    constructor <;> intro hp <;> linarith
  have p3 : densityPercent d.value < 100 / 3 ↔ d.value < 1 := by
    unfold densityPercent
    constructor <;> intro hp <;> linarith
  rw [p1, p2, p3, h]
  unfold thresholdStatus densityLabel densityGaugeStatus
  by_cases h1 : d.value < 1
  · have n1 : ¬ 1 ≤ d.value := by linarith
    have n3 : ¬ d.value > 3 := by linarith
    have n4 : ¬ 3 < d.value := by linarith
    have n5 : ¬ d.value = 3 := by
      intro h3
      linarith
    simp [h1, n1, n3, n4, n5, e1, e2, l2.symm, l3.symm, g1.symm]
  · by_cases h3 : d.value ≤ 3
    · have n1 : 1 ≤ d.value := by linarith
      have n3 : ¬ d.value > 3 := by linarith
      have n4 : ¬ 3 < d.value := by linarith
      simp [h1, h3, n1, n3, n4, e1.symm, e3.symm, l1, l2]
    · have n1 : 1 ≤ d.value := by linarith
      have n3 : d.value > 3 := by linarith
      have n4 : 3 < d.value := by linarith
      have n5 : ¬ d.value = 3 := by
        intro h5
        linarith
      simp [h1, h3, n1, n3, n4, n5, e2.symm, e3, l1.symm, l3, g1.symm]

/-- C9 at the inclusive upper bound: value 3 with status `optimal`. -/
theorem density_display_witness :
    densityLabel (js "optimal") = js "适中" ↔ (1 : ℚ) ≤ 3 ∧ (3 : ℚ) ≤ 3 :=
  (density_display ⟨3, js "optimal"⟩ (by decide)).1

/-! ## Failed export and analytics requests -/

/-- C10: a rejected export request triggers no download and leaves every state
    cell of the batch page as it was; a stats request that is rejected or
    answered with `success = false` leaves `stats` and `timeRange` as they were
    and ends with `loading = false`. -/
theorem failed_request_frame (st : BatchState) (now : Nat) (message : JSString)
    (ast : AnalyticsState) (out : Outcome (Envelope Stats))
    (h : (∃ reason, out = Outcome.rejected reason) ∨
      ∃ data, out = Outcome.resolved data ∧ data.success = false) :
    (exportContents st now (Outcome.rejected message)).1 = st ∧
    downloads (exportContents st now (Outcome.rejected message)).2 = [] ∧
    (fetchStats ast out).1.stats = ast.stats ∧
    (fetchStats ast out).1.timeRange = ast.timeRange ∧
    (fetchStats ast out).1.loading = false := by
  refine ⟨exportContents_state _ _ _, by simp [exportContents, downloads], ?_⟩
  rcases h with ⟨reason, rfl⟩ | ⟨data, rfl, hs⟩
  · simp [fetchStats]
  · simp [fetchStats, hs]

/-- C10 at the initial states, with both requests rejected. -/
theorem failed_request_frame_witness :
    (exportContents BatchState.init 0 (Outcome.rejected (js "timeout"))).1 = BatchState.init ∧
    (fetchStats AnalyticsState.init (Outcome.rejected (js "timeout"))).1.stats = none :=
  have h := failed_request_frame BatchState.init 0 (js "timeout") AnalyticsState.init
    (Outcome.rejected (js "timeout")) (Or.inl ⟨js "timeout", rfl⟩)
  ⟨h.1, h.2.2.1⟩

/-! ## The time range of the analytics page -/

theorem fetchStats_send_settle (st : AnalyticsState) (out : Outcome (Envelope Stats)) :
    fetchStats st out
      = ((fetchStatsSettle (fetchStatsSend st).1 out).1,
          (fetchStatsSend st).2 ++ (fetchStatsSettle (fetchStatsSend st).1 out).2) := by
  cases out with
  | resolved data =>
    by_cases hs : data.success = true <;> simp [fetchStats, fetchStatsSend, fetchStatsSettle, hs]
  | rejected message => simp [fetchStats, fetchStatsSend, fetchStatsSettle]

theorem fetchStatsSettle_timeRange (st : AnalyticsState) (out : Outcome (Envelope Stats)) :
    (fetchStatsSettle st out).1.timeRange = st.timeRange := by
  cases out with
  | resolved data =>
    by_cases hs : data.success = true <;> simp [fetchStatsSettle, hs]
  | rejected message => simp [fetchStatsSettle]

theorem fetchStats_request (st : AnalyticsState) (out : Outcome (Envelope Stats)) :
    sentRequests (fetchStats st out).2 = [Request.stats st.timeRange] ∧
    (fetchStats st out).1.timeRange = st.timeRange := by
  cases out with
  | resolved data =>
    by_cases hs : data.success = true <;> simp [fetchStats, sentRequests, hs]
  | rejected message => simp [fetchStats, sentRequests]

theorem AnalyticsReachable.timeRange_mem (st : AnalyticsState) (h : AnalyticsReachable st) :
    st.timeRange ∈ timeRangeOptions := by
  induction h with
  | init => decide
  | mounted => decide
  | step st st2 _ hs ih =>
    cases hs with
    | rangeSelected value hv hne => exact hv
    | statsSettled out =>
      rw [fetchStatsSettle_timeRange]
      exact ih

/-- C11: in a reachable state of the analytics page `timeRange` is 7, 30 or 90,
    and it is 30 initially; `fetchStats` sends exactly one request, for
    `days = timeRange`, a positive number; changing `timeRange` to another
    option value sends exactly one request, for the new value, and the new
    value is then the state's `timeRange`. -/
theorem timeRange_invariant (st : AnalyticsState) (h : AnalyticsReachable st)
    (out : Outcome (Envelope Stats)) :
    (st.timeRange = 7 ∨ st.timeRange = 30 ∨ st.timeRange = 90) ∧
    AnalyticsState.init.timeRange = 30 ∧
    sentRequests (fetchStats st out).2 = [Request.stats st.timeRange] ∧
    0 < st.timeRange ∧
    (∀ value ∈ timeRangeOptions, value ≠ st.timeRange →
      sentRequests (selectTimeRange st value out).2 = [Request.stats value] ∧
      (selectTimeRange st value out).1.timeRange = value ∧
      AnalyticsReachable (fetchStatsSend { st with timeRange := value }).1) := by
  have hm : st.timeRange = 7 ∨ st.timeRange = 30 ∨ st.timeRange = 90 := by
    simpa [timeRangeOptions] using AnalyticsReachable.timeRange_mem st h
  refine ⟨hm, rfl, (fetchStats_request st out).1, by omega, ?_⟩
  intro value hv hne
  unfold selectTimeRange
  rw [if_neg hne]
  exact ⟨(fetchStats_request _ out).1, (fetchStats_request _ out).2,
    AnalyticsReachable.step _ _ h (AnalyticsStep.rangeSelected st value hv hne)⟩

/-- C11 at the state after the mount effect, changing the range to 7 days. -/
theorem timeRange_invariant_witness :
    sentRequests
        (selectTimeRange (fetchStatsSend AnalyticsState.init).1 7
          (Outcome.rejected (js "timeout"))).2
      = [Request.stats 7] :=
  ((timeRange_invariant (fetchStatsSend AnalyticsState.init).1 AnalyticsReachable.mounted
    (Outcome.rejected (js "timeout"))).2.2.2.2 7 (by decide) (by decide)).1

/-! ## Keyword parsing through the text area -/

theorem split_of_not_mem (sep : Nat) (k : JSString) (h : sep ∉ k) : split sep k = [k] := by
  induction k with
  | nil => rfl
  | cons c cs ih =>
    have hc : c ≠ sep := fun e => h (e ▸ List.mem_cons_self _ _)
    have hcs : sep ∉ cs := fun hm => h (List.mem_cons_of_mem _ hm)
    unfold split
    rw [if_neg hc, ih hcs]

theorem split_append_sep (sep : Nat) (k s : JSString) (h : sep ∉ k) :
    split sep (k ++ sep :: s) = k :: split sep s := by
  induction k with
  | nil =>
    simp only [List.nil_append]
    conv_lhs => unfold split
    rw [if_pos rfl]
  | cons c cs ih =>
    have hc : c ≠ sep := fun e => h (e ▸ List.mem_cons_self _ _)
    have hcs : sep ∉ cs := fun hm => h (List.mem_cons_of_mem _ hm)
    simp only [List.cons_append]
    conv_lhs => unfold split
    rw [if_neg hc, ih hcs]

theorem join_cons_cons (sep : Nat) (k k2 : JSString) (rest : List JSString) :
    join sep (k :: k2 :: rest) = k ++ sep :: join sep (k2 :: rest) := by
  simp [join, List.intercalate, List.intersperse]

theorem split_join (sep : Nat) (parts : List JSString) (h : ∀ k ∈ parts, sep ∉ k)
    (hne : parts ≠ []) : split sep (join sep parts) = parts := by
  induction parts with
  | nil => exact absurd rfl hne
  | cons k rest ih =>
    cases rest with
    | nil =>
      have hj : join sep [k] = k := by simp [join, List.intercalate, List.intersperse]
      rw [hj]
      exact split_of_not_mem sep k (h k (List.mem_cons_self _ _))
    | cons k2 rest2 =>
      rw [join_cons_cons, split_append_sep sep k _ (h k (List.mem_cons_self _ _)),
        ih (fun x hx => h x (List.mem_cons_of_mem _ hx)) (by simp)]

theorem trim_eq_self (k : JSString) (h : IsKeyword k) : trim k = k := by
  obtain ⟨hne, hhead, hlast, -⟩ := h
  cases k with
  | nil => exact absurd rfl hne
  | cons a r =>
    have ha : isWhiteSpace a = false := hhead a rfl
    have hd : (a :: r).dropWhile isWhiteSpace = a :: r := by simp [List.dropWhile, ha]
    unfold trim
    rw [hd, List.rdropWhile_eq_self_iff]
    intro hl
    have := hlast ((a :: r).getLast hl) (List.getLast?_eq_getLast _ hl)
    simp [this]

theorem handleKeywordsInput_isKeyword (st : BatchState) (t : JSString) :
    ∀ k ∈ (handleKeywordsInput st t).keywords, IsKeyword k := by
  intro k hk
  simp only [handleKeywordsInput, List.mem_filter, List.mem_map] at hk
  obtain ⟨⟨l, hl, rfl⟩, hne⟩ := hk
  refine ⟨?_, trim_head_not_whiteSpace l, trim_last_not_whiteSpace l, ?_⟩
  · intro h0
    rw [h0] at hne
    simp [truthy] at hne
  · intro hm
    exact sep_not_mem_of_mem_split _ _ l hl ((trim_sublist l).subset hm)

theorem handleKeywordsInput_join (st : BatchState) (parts : List JSString)
    (h : ∀ k ∈ parts, IsKeyword k) :
    (handleKeywordsInput st (join lineFeed parts)).keywords = parts := by
  simp only [handleKeywordsInput]
  cases parts with
  | nil => decide
  | cons k rest =>
    rw [split_join lineFeed (k :: rest) (fun x hx => (h x hx).2.2.2) (by simp)]
    have hmap : (k :: rest).map trim = k :: rest := by
      conv_rhs => rw [← List.map_id (k :: rest)]
      exact List.map_congr_left (fun x hx => trim_eq_self x (h x hx))
    rw [hmap, List.filter_eq_self]
    intro x hx
    have := (h x hx).1
    cases x with
    | nil => exact absurd rfl this
    | cons a r => rfl

/-- C12: re-parsing the value the text area displays for the keywords parsed
    from any text `t` gives the same state again; and every list of keywords
    (non-empty strings with no white space at either end and no line feed) is
    what parsing its join by line feeds gives. -/
theorem handleKeywordsInput_roundtrip (st : BatchState) (t : JSString) :
    handleKeywordsInput (handleKeywordsInput st t) (textAreaValue (handleKeywordsInput st t))
      = handleKeywordsInput st t ∧
    (∀ (st2 : BatchState) (parts : List JSString), (∀ k ∈ parts, IsKeyword k) →
      (handleKeywordsInput st2 (join lineFeed parts)).keywords = parts) := by
  refine ⟨?_, fun st2 parts h => handleKeywordsInput_join st2 parts h⟩
  have hk := handleKeywordsInput_join (handleKeywordsInput st t)
    (handleKeywordsInput st t).keywords (handleKeywordsInput_isKeyword st t)
  unfold textAreaValue
  generalize handleKeywordsInput st t = s at hk ⊢
  cases s
  simp only [handleKeywordsInput] at hk ⊢
  rw [hk]

/-! ## Progress of a batch -/

theorem handleFileUpload_progress (st : BatchState) (status : Option JSString) (file : Blob)
    (out : Outcome (Envelope (List JSString))) :
    (handleFileUpload st status file out).1.progress = st.progress := by
  unfold handleFileUpload
  split_ifs
  · cases out with
    | resolved data =>
      simp only
      split_ifs <;> rfl
    | rejected message => rfl
  · rfl

theorem startBatchGenerationSettle_done (st : BatchState)
    (out : Outcome (Envelope (List ResultRow))) :
    (startBatchGenerationSettle st out).1.loading = false ∧
    (startBatchGenerationSettle st out).1.progress = 100 := by
  simp [startBatchGenerationSettle]

theorem BatchReachable.progress_mem (st : BatchState) (h : BatchReachable st) :
    st.progress = 0 ∨ st.progress = 100 := by
  induction h with
  | init => exact Or.inl rfl
  | step st st2 _ hs ih =>
    cases hs with
    | keywordsInput value => exact ih
    | fileUpload status file out =>
      rw [handleFileUpload_progress]
      exact ih
    | generateRejected h => exact ih
    | generateSent h => exact Or.inl rfl
    | generateSettled out => exact Or.inr (startBatchGenerationSettle_done _ out).2
    | formatSelected value h => exact ih
    | rowsSelected rows => exact ih
    | exportClicked now out h =>
      rw [exportContents_state]
      exact ih

/-- C13: in every reachable state of the batch page `progress` is 0 or 100;
    and when the keyword list is non-empty `startBatchGeneration` ends, for
    every outcome of the request, with `loading = false` and `progress = 100`,
    and `generatedContents` is as before unless the response has
    `success = true`, in which case it is the response's results. -/
theorem progress_zero_or_hundred (st : BatchState) (h : BatchReachable st)
    (out : Outcome (Envelope (List ResultRow))) :
    (st.progress = 0 ∨ st.progress = 100) ∧
    (st.keywords ≠ [] →
      (startBatchGeneration st out).1.loading = false ∧
      (startBatchGeneration st out).1.progress = 100 ∧
      ((∃ data, out = Outcome.resolved data ∧ data.success = true ∧
          (startBatchGeneration st out).1.generatedContents = data.payload) ∨
        (startBatchGeneration st out).1.generatedContents = st.generatedContents)) := by
  refine ⟨BatchReachable.progress_mem st h, fun hk => ⟨?_, ?_, ?_⟩⟩
  · simp [startBatchGeneration, hk, startBatchGenerationSettle]
  · simp [startBatchGeneration, hk, startBatchGenerationSettle]
  · cases out with
    | resolved data =>
      by_cases hs : data.success = true
      · exact Or.inl ⟨data, rfl, hs, by
          simp [startBatchGeneration, hk, startBatchGenerationSettle,
            startBatchGenerationSend, hs]⟩
      · exact Or.inr (by
          simp [startBatchGeneration, hk, startBatchGenerationSettle,
            startBatchGenerationSend, hs])
    | rejected message =>
      exact Or.inr (by
        simp [startBatchGeneration, hk, startBatchGenerationSettle, startBatchGenerationSend])

/-- C13 at the initial state (empty keyword list), at the state in which the
    batch for `["seo", "seo"]` is pending, and for the whole handler at
    `["seo", "seo"]` with a rejected request. -/
theorem progress_zero_or_hundred_witness :
    (BatchState.init.progress = 0 ∨ BatchState.init.progress = 100) ∧
    ((startBatchGenerationSend twoKeywords).1.progress = 0 ∨
      (startBatchGenerationSend twoKeywords).1.progress = 100) ∧
    (startBatchGeneration twoKeywords (Outcome.rejected (js "timeout"))).1.loading = false ∧
    (startBatchGeneration twoKeywords (Outcome.rejected (js "timeout"))).1.progress = 100 ∧
    (startBatchGeneration twoKeywords (Outcome.rejected (js "timeout"))).1.generatedContents
      = twoKeywords.generatedContents :=
  have hr : BatchReachable twoKeywords :=
    BatchReachable.step _ _ BatchReachable.init (BatchStep.keywordsInput _ _)
  have h := (progress_zero_or_hundred twoKeywords hr (Outcome.rejected (js "timeout"))).2
    (by decide)
  ⟨(progress_zero_or_hundred BatchState.init BatchReachable.init
      (Outcome.rejected (js "timeout"))).1,
    (progress_zero_or_hundred (startBatchGenerationSend twoKeywords).1
      (BatchReachable.step _ _ hr (BatchStep.generateSent twoKeywords (by decide)))
      (Outcome.rejected (js "timeout"))).1,
    h.1, h.2.1, by decide⟩

/-! ## Pagination of the history page -/

theorem fetchContents_send_settle (st : HistoryState) (page : Option Nat)
    (keywords type : Option JSString) (out : Outcome (Envelope SearchData)) :
    fetchContents st page keywords type out
      = ((fetchContentsSettle (fetchContentsSend st page keywords type).1 st.pagination page
            out).1,
          (fetchContentsSend st page keywords type).2
            ++ (fetchContentsSettle (fetchContentsSend st page keywords type).1 st.pagination
                  page out).2) := by
  cases out with
  | resolved data =>
    by_cases hs : data.success = true <;>
      simp [fetchContents, fetchContentsSend, fetchContentsSettle, hs]
  | rejected message => simp [fetchContents, fetchContentsSend, fetchContentsSettle]

theorem fetchContentsSettle_pageSize (st : HistoryState) (closure : Pagination)
    (page : Option Nat) (out : Outcome (Envelope SearchData)) :
    (fetchContentsSettle st closure page out).1.pagination.pageSize = st.pagination.pageSize ∨
    (fetchContentsSettle st closure page out).1.pagination.pageSize = closure.pageSize := by
  cases out with
  | resolved data =>
    by_cases hs : data.success = true <;> simp [fetchContentsSettle, hs]
  | rejected message => simp [fetchContentsSettle]

theorem HistoryReachable.pageSize_eq (st : HistoryState) (h : HistoryReachable st) :
    st.pagination.pageSize = 10 := by
  induction h with
  | init => rfl
  | fetchSent st page keywords type _ ih => exact ih
  | fetchSettled st st0 page out _ _ ih ih0 =>
    rcases fetchContentsSettle_pageSize st st0.pagination page out with e | e
    · rw [e]
      exact ih
    · rw [e]
      exact ih0
  | keywordsTyped st value _ ih => exact ih
  | typeSelected st value _ _ ih => exact ih
  | detailShown st record _ ih => exact ih
  | modalClosed st _ ih => exact ih

/-- C14: in a reachable state of the history page `pagination.pageSize` is 10
    and every call of `fetchContents` sends one search request, with
    `limit = 10`; `handleSearch` requests page 1 with the current keywords and
    type (an absent type is sent as the empty string); after a fetch of page
    `p` answered with `success = true`, `pagination.current` is `p`,
    `pagination.pageSize` is 10 and `pagination.total` is the response's total,
    0 when that is absent or 0; after a fetch that was rejected or answered
    with `success = false`, `contents` and `pagination` are as before and
    `loading` is false. -/
theorem history_pagination (st : HistoryState) (h : HistoryReachable st) (page : Option Nat)
    (keywords type : Option JSString) (out : Outcome (Envelope SearchData)) :
    st.pagination.pageSize = 10 ∧
    sentRequests (fetchContents st page keywords type out).2
      = [Request.search (page.getD 1) 10 (keywords.getD []) (type.getD [])] ∧
    sentRequests (handleSearch st out).2
      = [Request.search 1 10 st.searchKeywords (st.contentType.getD [])] ∧
    (∀ data : Envelope SearchData, data.success = true →
      (fetchContents st page keywords type (Outcome.resolved data)).1.pagination.current
        = page.getD 1 ∧
      (fetchContents st page keywords type (Outcome.resolved data)).1.pagination.pageSize = 10 ∧
      (fetchContents st page keywords type (Outcome.resolved data)).1.contents
        = data.payload.contents ∧
      (∀ n, data.payload.total = some n →
        (fetchContents st page keywords type (Outcome.resolved data)).1.pagination.total = n) ∧
      (data.payload.total = none ∨ data.payload.total = some 0 →
        (fetchContents st page keywords type (Outcome.resolved data)).1.pagination.total = 0)) ∧
    ((∃ reason, out = Outcome.rejected reason) ∨
        (∃ data, out = Outcome.resolved data ∧ data.success = false) →
      (fetchContents st page keywords type out).1.contents = st.contents ∧
      (fetchContents st page keywords type out).1.pagination = st.pagination ∧
      (fetchContents st page keywords type out).1.loading = false) := by
  have hp := HistoryReachable.pageSize_eq st h
  have hreq : ∀ (pg : Option Nat) (kw ty : Option JSString),
      sentRequests (fetchContents st pg kw ty out).2
        = [Request.search (pg.getD 1) 10 (kw.getD []) (ty.getD [])] := by
    intro pg kw ty
    cases out with
    | resolved data =>
      by_cases hs : data.success = true <;> simp [fetchContents, sentRequests, hs, hp]
    | rejected message => simp [fetchContents, sentRequests, hp]
  refine ⟨hp, hreq page keywords type, ?_, ?_, ?_⟩
  · have := hreq (some 1) (some st.searchKeywords) st.contentType
    simpa [handleSearch] using this
  · intro data hs
    refine ⟨by simp [fetchContents, hs], by simp [fetchContents, hs, hp],
      by simp [fetchContents, hs], ?_, ?_⟩
    · intro n hn
      simp [fetchContents, hs, hn]
    · intro h0
      rcases h0 with h0 | h0 <;> simp [fetchContents, hs, h0]
  · intro hf
    rcases hf with ⟨reason, rfl⟩ | ⟨data, rfl, hs⟩
    · simp [fetchContents]
    · simp [fetchContents, hs]

/-- C14 at the initial state: the fetch of the mount effect, rejected. -/
theorem history_pagination_witness :
    sentRequests (fetchContents HistoryState.init none none none
        (Outcome.rejected (js "timeout"))).2
      = [Request.search 1 10 [] []] :=
  (history_pagination HistoryState.init HistoryReachable.init none none none
    (Outcome.rejected (js "timeout"))).2.1

/-! ## Navigation targets -/

/-- C15: in the router of `App.jsx` and in the router of `index.jsx`, every
    navigation target is the path of exactly one declared route, and the
    declared route paths are pairwise distinct. -/
theorem navigation_targets_defined :
    (∀ target ∈ appRouter.targets, (routesAt appRouter target).length = 1) ∧
    appRouter.routes.Nodup ∧
    (∀ target ∈ indexRouter.targets, (routesAt indexRouter target).length = 1) ∧
    indexRouter.routes.Nodup := by
  refine ⟨by decide, by decide, by decide, by decide⟩

end SeoGenerate
